import Mathlib

/-!
Verification of the multi-account Gmail configuration and credential
subsystem (`gmail_client.py`) and of the structured-output helpers of the
CLI command layer (`scripts/email_cli.py`).

The Python code is shallowly embedded: the parsed TOML configuration
document becomes an explicit structure (`ConfigDoc`), the filesystem and
the external OAuth/HTTP collaborators become explicit oracle fields of
environment structures, and each Python function of interest becomes a
total Lean function over those structures.  Python dictionaries are
embedded as insertion-ordered association lists, mirroring the
order-preserving behaviour of both `dict` and `tomlkit` documents.
-/

namespace EmailCopilot

/-- Per-account entry of the `accounts` table of `config.toml`:
`{ email: optional string, token_path: optional string }`. -/
structure AccountConfig where
  email : Option String
  token_path : Option String
  deriving Repr, DecidableEq

/-- The `[gmail]` section of `config.toml`. -/
structure GmailSection where
  scopes : List String
  default_account : Option String
  default_query : Option String
  deriving Repr, DecidableEq

/-- The whole parsed `config.toml` document.  `accounts` is an
insertion-ordered association list from account name to its entry,
mirroring a TOML table of tables. -/
structure ConfigDoc where
  gmail : GmailSection
  accounts : List (String × AccountConfig)
  deriving Repr, DecidableEq

/-- Look up an account entry by name (first match, as in a dict). -/
def findAccount (doc : ConfigDoc) (name : String) : Option AccountConfig :=
  (doc.accounts.find? (fun p => p.1 = name)).map (·.2)

/-- The list of configured account names, in document order:
`list(accounts.keys())`. -/
def accountNames (doc : ConfigDoc) : List String :=
  doc.accounts.map (·.1)

/-- Membership test `name in doc["accounts"]`. -/
def hasAccount (doc : ConfigDoc) (name : String) : Bool :=
  doc.accounts.any (fun p => p.1 = name)

/-- The in-memory default document substituted by
`GmailClient._load_config` when `config.toml` does not exist
(gmail_client.py lines 96-104). -/
def defaultConfigDoc : ConfigDoc :=
  { gmail :=
      { scopes := ["https://www.googleapis.com/auth/gmail.modify"]
        default_account := some "default"
        default_query := none }
    accounts := [("default", { email := none, token_path := some "tokens/default.json" })] }

/-- `GmailClient._load_config` (gmail_client.py lines 89-104): returns the
parsed file when it exists, and otherwise catches `FileNotFoundError`,
logs a warning and returns `defaultConfigDoc`.  The file's presence and
parsed contents are the `Option ConfigDoc` argument. -/
def load_config (file : Option ConfigDoc) : ConfigDoc :=
  match file with
  | some d => d
  | none => defaultConfigDoc

/-- The `ValueError` raised by `GmailClient.__init__` when the resolved
account name has no entry: it carries the name and
`list(accounts.keys())`. -/
structure UnknownAccount where
  name : String
  available : List String
  deriving Repr, DecidableEq

/-- The account name `GmailClient.__init__` resolves (line 68):
`account or self.config["gmail"].get("default_account", "default")`.
`none` and the empty string are both falsy in Python, so each falls back
to the document's `default_account`, itself defaulting to the literal
`"default"` when the key is absent. -/
def resolvedName (doc : ConfigDoc) (account : Option String) : String :=
  match account with
  | some s => if s = "" then doc.gmail.default_account.getD "default" else s
  | none => doc.gmail.default_account.getD "default"

/-- The account-resolution step of `GmailClient.__init__`
(gmail_client.py lines 67-76): resolve the name, then fail with
`UnknownAccount` when it has no entry in `accounts`, else return the
entry. -/
def resolveAccount (doc : ConfigDoc) (account : Option String) :
    Except UnknownAccount AccountConfig :=
  let name := resolvedName doc account
  match findAccount doc name with
  | some ac => Except.ok ac
  | none => Except.error { name := name, available := accountNames doc }

/-- `ensure_account` (gmail_client.py lines 286-310) on a present,
parseable `config.toml`: returns `True` leaving the document unchanged
when the name already has an entry, otherwise appends a fresh entry whose
only field is `token_path = "tokens/<name>.json"` and writes the
document back.  The returned pair is (reported result, document after). -/
def ensure_account (doc : ConfigDoc) (name : String) : Bool × ConfigDoc :=
  if hasAccount doc name then
    (true, doc)
  else
    (true,
      { doc with
          accounts :=
            doc.accounts ++ [(name, { email := none, token_path := some ("tokens/" ++ name ++ ".json") })] })

/-- `set_default_account` (gmail_client.py lines 313-333) on a present,
parseable `config.toml`: returns `False` leaving the document unchanged
when the name has no entry in `accounts`, otherwise sets
`gmail.default_account` and writes the document back. -/
def set_default_account (doc : ConfigDoc) (name : String) : Bool × ConfigDoc :=
  if hasAccount doc name then
    (true, { doc with gmail := { doc.gmail with default_account := some name } })
  else
    (false, doc)

/-- The view of a `google.oauth2.credentials.Credentials` object that
`GmailClient.authenticate` reads: the `valid` and `expired` flags, the
presence of a refresh token, and the serialised payload written by
`to_json()`.  A `Credentials` object is always truthy in Python, so
truthiness of `self.creds` is `Option.isSome` of an `Option Creds`. -/
structure Creds where
  valid : Bool
  expired : Bool
  refreshToken : Option String
  payload : String
  deriving Repr, DecidableEq

/-- Environment of one `GmailClient.authenticate` run: the parsed token
file at `token_path` (`none` when the file is missing), whether the OAuth
client-secret file exists at `credentials_path`, that path itself (used in
the fatal diagnostic), the outcome of `creds.refresh(Request())` (`none`
models the call raising), and the credentials produced by the interactive
`flow.run_local_server` consent flow. -/
structure AuthEnv where
  tokenFile : Option Creds
  credentialsExists : Bool
  credentialsPath : String
  skillDir : String
  refreshOutcome : Creds → Option Creds
  flowResult : Creds

/-- Outcome of the token phase of `GmailClient.authenticate`:
either `sys.exit(code)` after logging `msgs`, or completion with the
resulting credentials, the token-file contents afterwards, and whether a
token-file write occurred. -/
inductive AuthResult where
  | exit (code : Nat) (msgs : List String)
  | done (creds : Creds) (tokenFileAfter : Option Creds) (wrote : Bool)
  deriving Repr, DecidableEq

/-- The three `logging.error` lines printed before `sys.exit(1)` when the
credentials file is missing (gmail_client.py lines 128-136). -/
def missingCredsMsgs (env : AuthEnv) : List String :=
  ["Credentials file not found at: " ++ env.credentialsPath,
   "Please download credentials.json from Google Cloud Console.",
   "See README.md in " ++ env.skillDir ++ " for setup instructions."]

/-- Lines 126-146 of `GmailClient.authenticate`, entered with the value of
`self.creds` after the refresh attempt: when `creds` is `None` the
interactive consent flow is required, which first terminates the process
if the client-secret file is absent; in every non-exit path the resulting
credentials are written to the token file. -/
def finishAuth (env : AuthEnv) (c : Option Creds) : AuthResult :=
  match c with
  | some c1 => AuthResult.done c1 (some c1) true
  | none =>
      if env.credentialsExists then
        AuthResult.done env.flowResult (some env.flowResult) true
      else
        AuthResult.exit 1 (missingCredsMsgs env)

/-- The token phase of `GmailClient.authenticate` (gmail_client.py lines
106-146).  Loaded credentials that are valid are used as-is with no
write.  Otherwise, a refresh is attempted only when the credentials are
expired AND carry a refresh token; a raising refresh sets `creds = None`
(line 124).  `finishAuth` then performs interactive consent exactly when
`creds` is `None`, and writes the token file. -/
def authenticate (env : AuthEnv) : AuthResult :=
  match env.tokenFile with
  | some c =>
      if c.valid then
        AuthResult.done c env.tokenFile false
      else
        finishAuth env
          (if c.expired && c.refreshToken.isSome then env.refreshOutcome c else some c)
  | none => finishAuth env none

/-- `GmailClient._save_email_to_config` (gmail_client.py lines 173-189) on
a present, parseable `config.toml`: ensures the account entry exists
(creating an empty one if missing), sets its `email` field, and writes the
document back.  When the entry exists, every entry with that key is
updated in place (a dict holds at most one). -/
def save_email_to_config (doc : ConfigDoc) (name email : String) : ConfigDoc :=
  if hasAccount doc name then
    { doc with
        accounts :=
          doc.accounts.map (fun p =>
            if p.1 = name then (p.1, { p.2 with email := some email }) else p) }
  else
    { doc with accounts := doc.accounts ++ [(name, { email := some email, token_path := none })] }

/-- Python truthiness of an optional string: `None` and `""` are falsy. -/
def strTruthy : Option String → Bool
  | some s => !(s = "")
  | none => false

/-- `GmailClient._update_account_email` (gmail_client.py lines 161-171)
followed by its caller's guard (lines 153-155).  `fetch` is the outcome of
`users().getProfile(...).execute().get("emailAddress")`: `Except.error`
models the call raising (caught, logged, no write), `Except.ok` carries
the optional `emailAddress` field.  `cfgFile` is the `config.toml`
contents (`none` = missing file, in which case `_save_email_to_config`
catches the error and performs no write).  Returns the cached email
afterwards, the config file afterwards, and the number of config writes
performed. -/
def emailPhase (accountEmail : Option String)
    (fetch : Except String (Option String))
    (cfgFile : Option ConfigDoc) (name : String) :
    Option String × Option ConfigDoc × Nat :=
  if strTruthy accountEmail then
    (accountEmail, cfgFile, 0)
  else
    match fetch with
    | Except.error _ => (accountEmail, cfgFile, 0)
    | Except.ok pe =>
        if strTruthy pe then
          match cfgFile with
          | some d => (pe, some (save_email_to_config d name (pe.getD "")), 1)
          | none => (pe, none, 0)
        else
          (accountEmail, cfgFile, 0)

/-- `os.path.isabs` on POSIX: the path starts with a slash. -/
def isAbs (p : String) : Bool :=
  match p.data with
  | [] => false
  | c :: _ => c = '/'

/-- `os.path.join(SKILL_DIR, p)` for the relative paths that occur here. -/
def joinPath (dir p : String) : String :=
  dir ++ "/" ++ p

/-- Token-path resolution shared by `GmailClient.__init__` (lines 81-85)
and `check_setup` (lines 393-395): the entry's `token_path` defaulting to
`tokens/<name>.json`, resolved against the skill directory when
relative. -/
def resolveTokenPath (skillDir name : String) (tp : Option String) : String :=
  let p := tp.getD ("tokens/" ++ name ++ ".json")
  if isAbs p then p else joinPath skillDir p

/-- State of `config.toml` as `check_setup` can observe it: absent,
present but failing to parse (the `except Exception: pass` branch), or
present and parsed. -/
inductive ConfigFileState where
  | missing
  | corrupt
  | parsed (doc : ConfigDoc)
  deriving Repr, DecidableEq

/-- Filesystem environment of `check_setup`: the skill directory, the
state of `config.toml`, whether `credentials.json` exists, and the set of
existing files (absolute paths), consulted for token files. -/
structure SetupEnv where
  skillDir : String
  configState : ConfigFileState
  credentialsExists : Bool
  existingFiles : List String
  deriving Repr, DecidableEq

/-- One element of the `accounts` list reported by `check_setup`. -/
structure AccountStatus where
  name : String
  email : Option String
  authenticated : Bool
  deriving Repr, DecidableEq

/-- The status dict returned by `check_setup`. -/
structure SetupStatus where
  config_exists : Bool
  credentials_exists : Bool
  accounts : List AccountStatus
  ready : Bool
  deriving Repr, DecidableEq

/-- `check_setup` (gmail_client.py lines 378-410): a read-only diagnostic.
`config_exists`/`credentials_exists` are existence checks; the `accounts`
list is built from the parsed config (empty when the file is missing or
parsing raises), each entry reporting `authenticated` as existence of the
resolved token path; `ready` is `credentials_exists` and some account
being authenticated. -/
def check_setup (env : SetupEnv) : SetupStatus :=
  let accounts :=
    match env.configState with
    | ConfigFileState.parsed doc =>
        doc.accounts.map (fun p =>
          { name := p.1
            email := p.2.email
            authenticated := env.existingFiles.contains (resolveTokenPath env.skillDir p.1 p.2.token_path) })
    | _ => []
  { config_exists := env.configState ≠ ConfigFileState.missing
    credentials_exists := env.credentialsExists
    accounts := accounts
    ready := env.credentialsExists && accounts.any (·.authenticated) }

/-- JSON values as built by the CLI before `json.dumps`. -/
inductive JVal where
  | str : String → JVal
  | num : Int → JVal
  | bool : Bool → JVal
  | null : JVal
  | arr : List JVal → JVal
  | obj : List (String × JVal) → JVal

/-- `json.dumps` of an optional string: `None` becomes `null`. -/
def jOptStr : Option String → JVal
  | some s => JVal.str s
  | none => JVal.null

/-- A JSON object is an insertion-ordered association list, like a Python
dict.  `dictSet d k v` is `d[k] = v`: an existing key keeps its position
and gets the new value, a fresh key is appended. -/
def dictSet (d : List (String × JVal)) (k : String) (v : JVal) :
    List (String × JVal) :=
  if d.any (fun p => p.1 = k) then
    d.map (fun p => if p.1 = k then (k, v) else p)
  else
    d ++ [(k, v)]

/-- Dict lookup (first match). -/
def jLookup (d : List (String × JVal)) (k : String) : Option JVal :=
  (d.find? (fun p => p.1 = k)).map (·.2)

/-- `output_error` (email_cli.py lines 1257-1262): builds
`{"status": "error", "message": message}` and adds `account` only when
the argument is truthy. -/
def output_error (message : String) (account : Option String) :
    List (String × JVal) :=
  let r := [("status", JVal.str "error"), ("message", JVal.str message)]
  if strTruthy account then dictSet r "account" (JVal.str (account.getD "")) else r

/-- `output_success` (email_cli.py lines 1265-1272): strips any `status`
key from `data`, builds `{"status": "success", **clean_data}`, and adds
`account` only when the argument is truthy. -/
def output_success (data : List (String × JVal)) (account : Option String) :
    List (String × JVal) :=
  let clean := data.filter (fun p => !(p.1 = "status"))
  let r := ("status", JVal.str "success") :: clean
  if strTruthy account then dictSet r "account" (JVal.str (account.getD "")) else r

/-- A Gmail label as returned by `users().labels().list` and read by
`resolve_label` and `cmd_labels_list`; the API always supplies `id`,
`name` and `type`, the message counts only sometimes. -/
structure LabelInfo where
  id : String
  name : String
  type : String
  messagesTotal : Option Int
  messagesUnread : Option Int
  deriving Repr, DecidableEq

/-- `resolve_label` (email_cli.py lines 1336-1354) after `_list_labels`
already returned `labels`: first an exact id match, then a
case-insensitive name match, else nothing. -/
def resolve_label (labels : List LabelInfo) (nameOrId : String) :
    Option (String × String × String) :=
  match labels.find? (fun l => l.id = nameOrId) with
  | some l => some (l.id, l.name, l.type)
  | none =>
      match labels.find? (fun l => l.name.toLower = nameOrId.toLower) with
      | some l => some (l.id, l.name, l.type)
      | none => none

/-- One entry of a message payload's `parts` list; `data` holds the
decoded text of the part's `body.data` (base64url decoding is delegated
to the standard library and elided), `none` when the key is absent. -/
structure MsgPart where
  mimeType : String
  data : Option String
  deriving Repr, DecidableEq

/-- A message payload as read by `cmd_summary`: headers as (name, value)
pairs, an optional `parts` list, and an optional `body` object with its
optional decoded `data`. -/
structure MsgPayload where
  headers : List (String × String)
  parts : Option (List MsgPart)
  body : Option (Option String)
  deriving Repr, DecidableEq

/-- A full message as delivered to the batch callback of `cmd_summary`. -/
structure MsgData where
  payload : MsgPayload
  snippet : String
  deriving Repr, DecidableEq

/-- `get_header` (email_cli.py lines 1275-1280): case-insensitive lookup
in the headers list with a default. -/
def get_header (headers : List (String × String)) (name dflt : String) : String :=
  match headers.find? (fun h => h.1.toLower = name.toLower) with
  | some h => h.2
  | none => dflt

/-- Body extraction of `cmd_summary` (email_cli.py lines 345-356): with a
`parts` list, the first `text/plain` part carrying truthy data; otherwise
the `body` object's truthy data; otherwise the empty string. -/
def extractBody (p : MsgPayload) : String :=
  match p.parts with
  | some ps =>
      match ps.find? (fun part => part.mimeType = "text/plain" && strTruthy part.data) with
      | some part => part.data.getD ""
      | none => ""
  | none =>
      match p.body with
      | some d => if strTruthy d then d.getD "" else ""
      | none => ""

/-- The per-message object appended to the `cmd_summary` output
(email_cli.py lines 337-367), including the snippet fallback for an empty
body and the 2000-character truncation. -/
def summaryItem (mid : String) (d : MsgData) : JVal :=
  let body := extractBody d.payload
  let body := if body = "" then d.snippet else body
  JVal.obj
    [("id", JVal.str mid),
     ("subject", JVal.str (get_header d.payload.headers "subject" "No Subject")),
     ("from", JVal.str (get_header d.payload.headers "from" "Unknown")),
     ("date", JVal.str (get_header d.payload.headers "date" "")),
     ("body", JVal.str (body.take 2000))]

/-- `json.dumps` of an optional integer count. -/
def jOptNum : Option Int → JVal
  | some n => JVal.num n
  | none => JVal.null

/-- The `label_info` dict of `cmd_labels_list` (email_cli.py lines
440-450): id, name, type, plus the message counts when `messagesTotal`
is present in the API response. -/
def labelItem (l : LabelInfo) : List (String × JVal) :=
  let base := [("id", JVal.str l.id), ("name", JVal.str l.name), ("type", JVal.str l.type)]
  match l.messagesTotal with
  | some t => base ++ [("messages_total", JVal.num t), ("messages_unread", jOptNum l.messagesUnread)]
  | none => base

/-- Environment of `cmd_labels_list`: the authenticated account's email
and the outcome of the `users().labels().list` provider call
(`Except.error` models the call raising). -/
structure LabelsListEnv where
  accountEmail : Option String
  labelsResult : Except String (List LabelInfo)

/-- `cmd_labels_list` (email_cli.py lines 432-465).  The provider call
sits inside `try`, so a raising call is caught and reported through
`output_error`; otherwise the labels are split into system labels (listed
first, in API order) and user labels (sorted case-insensitively by name)
and one success document is printed. -/
def cmd_labels_list (env : LabelsListEnv) : List (String × JVal) :=
  match env.labelsResult with
  | Except.error e => output_error e env.accountEmail
  | Except.ok labels =>
      let system := labels.filter (fun l => l.type = "system")
      let user := (labels.filter (fun l => l.type = "user")).mergeSort
        (fun a b => a.name.toLower ≤ b.name.toLower)
      [("status", JVal.str "success"),
       ("labels", JVal.arr ((system ++ user).map (fun l => JVal.obj (labelItem l)))),
       ("count", JVal.num labels.length),
       ("user_labels", JVal.num user.length),
       ("account", jOptStr env.accountEmail)]

/-- Environment of `cmd_summary`: the account email, the label argument,
and the outcomes of its three provider interactions — the
`users().labels().list` call made by `resolve_label`, the
`users().messages().list` call, and the `batch.execute()` call together
with the per-message responses its callback collected (the callback drops
responses that arrived with a per-item error). -/
structure SummaryEnv where
  accountEmail : Option String
  label : String
  labelsResult : Except String (List LabelInfo)
  listResult : Except String (List String)
  batchExec : Except String Unit
  batchResponses : List (String × MsgData)

/-- `cmd_summary` (email_cli.py lines 296-369).  None of its provider
calls is wrapped in `try`, so `Except.error` outcomes propagate out of
the command as uncaught exceptions; a missing label is reported through
`output_error`; otherwise one JSON document (no `status` key) is
printed. -/
def cmd_summary (env : SummaryEnv) : Except String (List (String × JVal)) := do
  let labels ← env.labelsResult
  match resolve_label labels env.label with
  | none => return output_error ("Label '" ++ env.label ++ "' not found") env.accountEmail
  | some _ => do
      let msgs ← env.listResult
      if msgs.isEmpty then
        return [("emails", JVal.arr []), ("count", JVal.num 0),
                ("account", jOptStr env.accountEmail)]
      else do
        let _ ← env.batchExec
        return [("emails", JVal.arr (env.batchResponses.map (fun p => summaryItem p.1 p.2))),
                ("count", JVal.num env.batchResponses.length),
                ("account", jOptStr env.accountEmail)]

/-- One response of the paginated `users().messages().list` loop of
`cmd_cleanup`: the message ids of the page and whether a
`nextPageToken` was returned. -/
structure PageResp where
  ids : List String
  nextPage : Bool
  deriving Repr, DecidableEq

/-- The `while True` pagination loop of `cmd_cleanup` (email_cli.py lines
387-400) over the successive outcomes of the list call: a raising call
propagates, otherwise ids are accumulated until a page carries no next
token. -/
def collectPages : List (Except String PageResp) → Except String (List String)
  | [] => Except.ok []
  | r :: rest =>
      match r with
      | Except.error e => Except.error e
      | Except.ok pg =>
          if pg.nextPage then
            match collectPages rest with
            | Except.error e => Except.error e
            | Except.ok more => Except.ok (pg.ids ++ more)
          else Except.ok pg.ids

/-- The positions (1-based) at which the trash loop of `cmd_cleanup`
(email_cli.py lines 412-417) calls `batch.execute()`: every 50th message
and the last one. -/
def batchPoints (total : Nat) : List Nat :=
  (List.range total).filterMap
    (fun i => if (i + 1) % 50 == 0 || i + 1 == total then some (i + 1) else none)

/-- Sequential execution of the trash batches: the `k`-th `execute` call
has outcome `oracle k`, and a raising call propagates immediately. -/
def runBatches (oracle : Nat → Except String Unit) :
    List Nat → Nat → Except String Unit
  | [], _ => Except.ok ()
  | _ :: rest, k =>
      match oracle k with
      | Except.error e => Except.error e
      | Except.ok _ => runBatches oracle rest (k + 1)

/-- Environment of `cmd_cleanup`: the account email, the label argument,
the successive page responses of the (time-parameterised) search query,
and the outcome of each `batch.execute()` call of the trash loop. -/
structure CleanupEnv where
  accountEmail : Option String
  label : String
  pages : List (Except String PageResp)
  trashExec : Nat → Except String Unit

/-- `cmd_cleanup` (email_cli.py lines 372-419).  The date-bounded search
query construction is time-dependent and elided; `env.pages` holds the
responses to that query.  No provider call is wrapped in `try`, so a
raising list or batch call propagates out of the command; otherwise a
single success document is printed. -/
def cmd_cleanup (env : CleanupEnv) : Except String (List (String × JVal)) := do
  let ids ← collectPages env.pages
  if ids.isEmpty then
    return [("status", JVal.str "success"), ("count", JVal.num 0),
            ("message", JVal.str "No old emails found"),
            ("account", jOptStr env.accountEmail)]
  else do
    let _ ← runBatches env.trashExec (batchPoints ids.length) 0
    return [("status", JVal.str "success"), ("count", JVal.num (ids.length : Int)),
            ("account", jOptStr env.accountEmail)]

/-! ### Helper lemmas about association lists -/

theorem find?_map_entryUpdate {β : Type} (l : List (String × β)) (k m : String)
    (f : β → β) (hm : m ≠ k) :
    (l.map (fun p => if p.1 = k then (p.1, f p.2) else p)).find? (fun p => p.1 = m) =
      l.find? (fun p => p.1 = m) := by
  induction l with
  | nil => rfl
  | cons p t ih =>
      obtain ⟨a, b⟩ := p
      by_cases ha : a = k
      · subst ha
        simp [List.find?_cons, Ne.symm hm, ih]
      · by_cases ham : a = m
        · subst ham
          simp [List.find?_cons, ha]
        · simp [List.find?_cons, ha, ham, ih]

theorem find?_map_entryUpdate_self {β : Type} (l : List (String × β)) (k : String)
    (f : β → β) :
    (l.map (fun p => if p.1 = k then (p.1, f p.2) else p)).find? (fun p => p.1 = k) =
      (l.find? (fun p => p.1 = k)).map (fun p => (p.1, f p.2)) := by
  induction l with
  | nil => rfl
  | cons p t ih =>
      obtain ⟨a, b⟩ := p
      by_cases ha : a = k
      · subst ha
        simp [List.find?_cons]
      · simp [List.find?_cons, ha, ih]

theorem find?_map_entrySet {β : Type} (l : List (String × β)) (k m : String)
    (v : β) (hm : m ≠ k) :
    (l.map (fun p => if p.1 = k then (k, v) else p)).find? (fun p => p.1 = m) =
      l.find? (fun p => p.1 = m) := by
  induction l with
  | nil => rfl
  | cons p t ih =>
      obtain ⟨a, b⟩ := p
      by_cases ha : a = k
      · subst ha
        simp [List.find?_cons, Ne.symm hm, ih]
      · by_cases ham : a = m
        · subst ham
          simp [List.find?_cons, ha]
        · simp [List.find?_cons, ha, ham, ih]

theorem filter_map_entrySet {β : Type} (l : List (String × β)) (k m : String)
    (v : β) (hm : m ≠ k) :
    (l.map (fun p => if p.1 = k then (k, v) else p)).filter (fun p => p.1 = m) =
      l.filter (fun p => p.1 = m) := by
  induction l with
  | nil => rfl
  | cons p t ih =>
      obtain ⟨a, b⟩ := p
      by_cases ha : a = k
      · subst ha
        simp [List.filter_cons, Ne.symm hm, ih]
      · by_cases ham : a = m
        · subst ham
          simp [List.filter_cons, ha, ih]
        · simp [List.filter_cons, ha, ham, ih]

theorem find?_key_append_single {β : Type} (l : List (String × β)) (k m : String)
    (x : β) (hm : m ≠ k) :
    (l ++ [(k, x)]).find? (fun p => p.1 = m) = l.find? (fun p => p.1 = m) := by
  rw [List.find?_append]
  have h2 : ([(k, x)].find? (fun p => p.1 = m)) = none := by
    simp [List.find?_cons, Ne.symm hm]
  rw [h2, Option.or_none]

theorem hasAccount_false_find?_none (doc : ConfigDoc) (name : String)
    (h : hasAccount doc name = false) :
    doc.accounts.find? (fun p => p.1 = name) = none := by
  simp only [hasAccount] at h
  rw [List.find?_eq_none]
  exact List.any_eq_false.mp h

theorem filter_key_nil_of_hasAccount_false (doc : ConfigDoc) (name : String)
    (h : hasAccount doc name = false) :
    doc.accounts.filter (fun p => p.1 = name) = [] := by
  simp only [hasAccount] at h
  rw [List.filter_eq_nil_iff]
  exact List.any_eq_false.mp h

theorem filter_key_length_one_of_nodup (l : List (String × AccountConfig)) (name : String)
    (hnd : (l.map Prod.fst).Nodup) (hmem : l.any (fun p => p.1 = name) = true) :
    (l.filter (fun p => p.1 = name)).length = 1 := by
  induction l with
  | nil => simp at hmem
  | cons p t ih =>
      obtain ⟨a, b⟩ := p
      simp only [List.map_cons, List.nodup_cons] at hnd
      by_cases ha : a = name
      · subst ha
        have ht : t.filter (fun q => q.1 = a) = [] := by
          rw [List.filter_eq_nil_iff]
          intro q hq hq1
          apply hnd.1
          have hq1' : q.1 = a := by simpa using hq1
          exact hq1' ▸ List.mem_map_of_mem Prod.fst hq
        simp [List.filter_cons, ht]
      · have hmem' : t.any (fun q => q.1 = name) = true := by
          rcases List.any_eq_true.mp hmem with ⟨q, hqmem, hq1⟩
          rcases List.mem_cons.mp hqmem with h | h
          · exact absurd (by simpa [h] using hq1) ha
          · exact List.any_eq_true.mpr ⟨q, h, hq1⟩
        simp [List.filter_cons, ha, ih hnd.2 hmem']

theorem dictSet_find?_ne (d : List (String × JVal)) (k k' : String) (v : JVal)
    (h : k' ≠ k) :
    (dictSet d k v).find? (fun p => p.1 = k') = d.find? (fun p => p.1 = k') := by
  unfold dictSet
  by_cases hany : d.any (fun p => p.1 = k) = true
  · rw [if_pos hany]
    exact find?_map_entrySet d k k' v h
  · rw [if_neg hany]
    exact find?_key_append_single d k k' v h

theorem dictSet_filter_ne (d : List (String × JVal)) (k k' : String) (v : JVal)
    (h : k' ≠ k) :
    (dictSet d k v).filter (fun p => p.1 = k') = d.filter (fun p => p.1 = k') := by
  unfold dictSet
  by_cases hany : d.any (fun p => p.1 = k) = true
  · rw [if_pos hany]
    exact filter_map_entrySet d k k' v h
  · rw [if_neg hany, List.filter_append]
    simp [List.filter_cons, Ne.symm h]

theorem dictSet_head?_of_ne (x : String × JVal) (t : List (String × JVal))
    (k : String) (v : JVal) (h : x.1 ≠ k) :
    (dictSet (x :: t) k v).head? = some x := by
  unfold dictSet
  by_cases hany : ((x :: t).any (fun p => p.1 = k)) = true
  · rw [if_pos hany]
    simp [h]
  · rw [if_neg hany]
    simp

/-! ### Claim theorems -/

/-- C1 (counterexample): the claim asserts that the in-memory default
document substituted when `config.toml` is missing has an empty accounts
mapping; in the code the default document carries one pre-populated
`"default"` entry, so its accounts mapping is not empty. -/
theorem load_config_default_accounts_not_empty :
    (load_config none).accounts ≠ [] := by decide

/-- C1 (amended): when the configuration file does not exist, loading
returns (never fatally) the in-memory default document with scopes
exactly `["https://www.googleapis.com/auth/gmail.modify"]`,
`default_account = "default"`, and an accounts mapping holding exactly
the single entry `"default"` with token path `tokens/default.json` and no
email. -/
theorem load_config_missing_returns_default :
    load_config none =
      { gmail :=
          { scopes := ["https://www.googleapis.com/auth/gmail.modify"]
            default_account := some "default"
            default_query := none }
        accounts :=
          [("default", { email := none, token_path := some "tokens/default.json" })] } := by
  decide

/-- C4: resolving an account fails with an `UnknownAccount` error listing
all configured account names exactly when the resolved name (the explicit
name, or `default_account` falling back to `"default"` for an
empty/absent name) has no entry in `accounts`, and succeeds with that
account's configuration otherwise. -/
theorem resolveAccount_unknown_or_found (doc : ConfigDoc) (account : Option String) :
    (findAccount doc (resolvedName doc account) = none →
      resolveAccount doc account =
        Except.error { name := resolvedName doc account, available := accountNames doc })
    ∧ (∀ ac, findAccount doc (resolvedName doc account) = some ac →
      resolveAccount doc account = Except.ok ac) := by
  constructor
  · intro h
    simp [resolveAccount, h]
  · intro ac h
    simp [resolveAccount, h]

/-- C4 witness: with only `"default"` configured, resolving `"work"`
fails with `UnknownAccount` listing `["default"]`. -/
theorem resolveAccount_unknown_or_found_witness :
    findAccount defaultConfigDoc (resolvedName defaultConfigDoc (some "work")) = none
    ∧ resolveAccount defaultConfigDoc (some "work") =
        Except.error { name := "work", available := ["default"] } :=
  ⟨by decide, (resolveAccount_unknown_or_found defaultConfigDoc (some "work")).1 (by decide)⟩

/-- C10: every document built by `output_success` carries
`status = "success"` as its first key, with any `status` key of the
supplied data silently discarded (exactly one `status` key remains), and
every document built by `output_error` carries `status = "error"` as its
first key; so the `status` field of every emitted result document is
determined solely by which helper emitted it. -/
theorem output_status_invariant (data : List (String × JVal)) (message : String)
    (account : Option String) :
    (output_success data account).head? = some ("status", JVal.str "success")
    ∧ jLookup (output_success data account) "status" = some (JVal.str "success")
    ∧ ((output_success data account).filter (fun p => p.1 = "status")).length = 1
    ∧ (output_error message account).head? = some ("status", JVal.str "error")
    ∧ jLookup (output_error message account) "status" = some (JVal.str "error") := by
  have hne : ("status" : String) ≠ "account" := by decide
  have hclean :
      (data.filter (fun p => !(p.1 = "status"))).filter (fun p => p.1 = "status") = [] := by
    rw [List.filter_filter]
    simp
  refine ⟨?_, ?_, ?_, ?_, ?_⟩
  · unfold output_success
    by_cases h : strTruthy account = true
    · rw [if_pos h]
      exact dictSet_head?_of_ne _ _ _ _ hne
    · rw [if_neg h]
      rfl
  · unfold output_success jLookup
    by_cases h : strTruthy account = true
    · rw [if_pos h, dictSet_find?_ne _ _ _ _ hne]
      simp [List.find?_cons]
    · rw [if_neg h]
      simp [List.find?_cons]
  · unfold output_success
    by_cases h : strTruthy account = true
    · rw [if_pos h, dictSet_filter_ne _ _ _ _ hne]
      simp [List.filter_cons, hclean]
    · rw [if_neg h]
      simp [List.filter_cons, hclean]
  · unfold output_error
    by_cases h : strTruthy account = true
    · rw [if_pos h]
      exact dictSet_head?_of_ne _ _ _ _ hne
    · rw [if_neg h]
      rfl
  · unfold output_error jLookup
    by_cases h : strTruthy account = true
    · rw [if_pos h, dictSet_find?_ne _ _ _ _ hne]
      simp [List.find?_cons]
    · rw [if_neg h]
      simp [List.find?_cons]

/-- Branch lemma: `ensure_account` on an already-present name reports
success and changes nothing. -/
theorem ensure_account_of_has (d : ConfigDoc) (n : String)
    (h : hasAccount d n = true) : ensure_account d n = (true, d) := by
  unfold ensure_account
  rw [if_pos h]

/-- Branch lemma: `ensure_account` on an absent name reports success and
appends the fresh default entry. -/
theorem ensure_account_of_not_has (d : ConfigDoc) (n : String)
    (h : hasAccount d n = false) :
    ensure_account d n =
      (true,
        { d with
            accounts :=
              d.accounts ++
                [(n, { email := none, token_path := some ("tokens/" ++ n ++ ".json") })] }) := by
  unfold ensure_account
  rw [if_neg (by simp [h])]

/-- C5: `ensure_account` is idempotent: after calling it twice for `n`
(on a well-formed document, whose dict keys are unique), the document
holds exactly one entry for `n`, the second call reports success and
changes nothing, an already-present entry leaves the whole document
untouched (so neither its email nor any other field is reset), and a
fresh add stores the default token path `tokens/<n>.json`. -/
theorem ensure_account_idempotent (doc : ConfigDoc) (n : String)
    (hnd : (accountNames doc).Nodup) :
    (ensure_account (ensure_account doc n).2 n).1 = true
    ∧ (ensure_account (ensure_account doc n).2 n).2 = (ensure_account doc n).2
    ∧ ((ensure_account doc n).2.accounts.filter (fun p => p.1 = n)).length = 1
    ∧ (hasAccount doc n = true → (ensure_account doc n).2 = doc)
    ∧ (hasAccount doc n = false →
        findAccount (ensure_account doc n).2 n =
          some { email := none, token_path := some ("tokens/" ++ n ++ ".json") }) := by
  by_cases h : hasAccount doc n = true
  · have h1 := ensure_account_of_has doc n h
    refine ⟨?_, ?_, ?_, ?_, ?_⟩
    · rw [h1, ensure_account_of_has doc n h]
    · rw [h1, ensure_account_of_has doc n h]
    · rw [h1]
      exact filter_key_length_one_of_nodup doc.accounts n
        (by simpa [accountNames] using hnd) (by simpa [hasAccount] using h)
    · intro _
      rw [h1]
    · intro hc
      rw [hc] at h
      simp at h
  · have hf : hasAccount doc n = false := by
      cases hh : hasAccount doc n
      · rfl
      · exact absurd hh h
    have h1 := ensure_account_of_not_has doc n hf
    have hfind : doc.accounts.find? (fun p => p.1 = n) = none :=
      hasAccount_false_find?_none doc n hf
    have hfilter : doc.accounts.filter (fun p => p.1 = n) = [] :=
      filter_key_nil_of_hasAccount_false doc n hf
    have hhas2 : hasAccount (ensure_account doc n).2 n = true := by
      rw [h1]
      simp [hasAccount, List.any_append]
    have h2 := ensure_account_of_has (ensure_account doc n).2 n hhas2
    refine ⟨?_, ?_, ?_, ?_, ?_⟩
    · rw [h2]
    · rw [h2]
    · rw [h1]
      simp [List.filter_append, hfilter, List.filter_cons]
    · intro hc
      rw [hc] at hf
      simp at hf
    · intro _
      rw [h1]
      unfold findAccount
      simp only [List.find?_append, hfind, Option.none_or]
      simp [List.find?_cons]

/-- C5 witness: adding `"work"` to the default one-account document and
ensuring it again: the second call succeeds without changing anything,
exactly one `"work"` entry exists, and it carries token path
`tokens/work.json`. -/
theorem ensure_account_idempotent_witness :
    (accountNames defaultConfigDoc).Nodup
    ∧ ((ensure_account (ensure_account defaultConfigDoc "work").2 "work").1 = true
      ∧ (ensure_account (ensure_account defaultConfigDoc "work").2 "work").2 =
          (ensure_account defaultConfigDoc "work").2
      ∧ (((ensure_account defaultConfigDoc "work").2.accounts.filter
            (fun p => p.1 = "work")).length = 1)
      ∧ (hasAccount defaultConfigDoc "work" = true →
          (ensure_account defaultConfigDoc "work").2 = defaultConfigDoc)
      ∧ (hasAccount defaultConfigDoc "work" = false →
          findAccount (ensure_account defaultConfigDoc "work").2 "work" =
            some { email := none, token_path := some "tokens/work.json" })) :=
  ⟨by decide, ensure_account_idempotent defaultConfigDoc "work" (by decide)⟩

/-- A two-account sample document used as the concrete input of the C6
witness. -/
def twoAccountDoc : ConfigDoc :=
  { gmail :=
      { scopes := ["https://www.googleapis.com/auth/gmail.modify"]
        default_account := some "default"
        default_query := none }
    accounts :=
      [("default", { email := none, token_path := some "tokens/default.json" }),
       ("work", { email := some "w@x.io", token_path := some "tokens/work.json" })] }

/-- The `"work"` entry of `twoAccountDoc`. -/
def workEntry : AccountConfig :=
  { email := some "w@x.io", token_path := some "tokens/work.json" }

/-- C6: `set_default_account n` on a configured account returns `true`,
persists `n` as `default_account` leaving the accounts table, the scopes
and the default query untouched, and a subsequent resolve with no
explicit account name yields `n`'s configuration; on an unknown name it
returns `false` and leaves the whole document unchanged. -/
theorem set_default_account_spec (doc : ConfigDoc) (n : String) :
    (∀ ac, findAccount doc n = some ac →
      (set_default_account doc n).1 = true
      ∧ (set_default_account doc n).2.gmail.default_account = some n
      ∧ (set_default_account doc n).2.accounts = doc.accounts
      ∧ (set_default_account doc n).2.gmail.scopes = doc.gmail.scopes
      ∧ (set_default_account doc n).2.gmail.default_query = doc.gmail.default_query
      ∧ resolveAccount (set_default_account doc n).2 none = Except.ok ac)
    ∧ (hasAccount doc n = false → set_default_account doc n = (false, doc)) := by
  constructor
  · intro ac hac
    have hhas : hasAccount doc n = true := by
      unfold findAccount at hac
      rcases Option.map_eq_some'.mp hac with ⟨q, hq, _⟩
      have hmem := List.mem_of_find?_eq_some hq
      have hqa := List.find?_some hq
      exact List.any_eq_true.mpr ⟨q, hmem, by simpa using hqa⟩
    have h1 : set_default_account doc n =
        (true, { doc with gmail := { doc.gmail with default_account := some n } }) := by
      unfold set_default_account
      rw [if_pos hhas]
    refine ⟨by rw [h1], by rw [h1], by rw [h1], by rw [h1], by rw [h1], ?_⟩
    rw [h1]
    unfold resolveAccount resolvedName
    simp only [Option.getD_some]
    have h2 : findAccount { doc with gmail := { doc.gmail with default_account := some n } } n =
        some ac := hac
    rw [h2]
  · intro hf
    unfold set_default_account
    rw [if_neg (by simp [hf])]

/-- C6 witness: on a two-account document, setting `"work"` as default
succeeds, the default resolve then returns the `"work"` entry, and
setting an unknown name fails and changes nothing. -/
theorem set_default_account_spec_witness :
    findAccount twoAccountDoc "work" = some workEntry
    ∧ (set_default_account twoAccountDoc "work").1 = true
    ∧ resolveAccount (set_default_account twoAccountDoc "work").2 none = Except.ok workEntry
    ∧ hasAccount defaultConfigDoc "nope" = false
    ∧ set_default_account defaultConfigDoc "nope" = (false, defaultConfigDoc) := by
  refine ⟨by decide, ?_, ?_, by decide, ?_⟩
  · exact ((set_default_account_spec twoAccountDoc "work").1 workEntry (by decide)).1
  · exact ((set_default_account_spec twoAccountDoc "work").1 workEntry (by decide)).2.2.2.2.2
  · exact (set_default_account_spec defaultConfigDoc "nope").2 (by decide)

/-- An expired credential without a refresh token, as loaded from a stale
token file. -/
def staleCreds : Creds :=
  { valid := false, expired := true, refreshToken := none, payload := "stale-token" }

/-- The credentials produced by a successful interactive consent flow. -/
def flowCreds : Creds :=
  { valid := true, expired := false, refreshToken := some "rt-new", payload := "flow-token" }

/-- Concrete authentication environment: stale expired token without a
refresh token on disk, client-secret file present, consent flow
available. -/
def envNoRefreshToken : AuthEnv :=
  { tokenFile := some staleCreds
    credentialsExists := true
    credentialsPath := "/skill/credentials.json"
    skillDir := "/skill"
    refreshOutcome := fun _ => none
    flowResult := flowCreds }

/-- C2 (counterexample): the claim asserts that with an expired token and
no refresh token, authentication falls through to the interactive consent
flow "as if no token existed".  On `envNoRefreshToken` the code instead
keeps the stale expired credentials and rewrites them to the token file,
while the genuine no-token run of the same environment uses the consent
flow's credentials — the two runs differ, refuting the claim. -/
theorem authenticate_no_refresh_token_counterexample :
    authenticate envNoRefreshToken = AuthResult.done staleCreds (some staleCreds) true
    ∧ authenticate { envNoRefreshToken with tokenFile := none } =
        AuthResult.done flowCreds (some flowCreds) true
    ∧ authenticate envNoRefreshToken ≠
        authenticate { envNoRefreshToken with tokenFile := none } := by
  refine ⟨rfl, rfl, ?_⟩
  intro h
  simp [authenticate, envNoRefreshToken, finishAuth, staleCreds, flowCreds] at h

/-- C2 (amended): for a stored token that is expired: with a refresh
token present and a succeeding refresh call, authentication ends in the
Valid state and the token file is overwritten with the refreshed payload;
with a refresh token present and a failing refresh call, authentication
falls through to interactive consent exactly as if no token existed; with
no refresh token present, authentication neither refreshes nor runs the
consent flow — it keeps the stale expired credentials and rewrites them
to the token file (it does not loop or crash). -/
theorem authenticate_expired_token_lifecycle (env : AuthEnv) (c c' : Creds)
    (hload : env.tokenFile = some c) (hinvalid : c.valid = false) :
    (c.expired = true → c.refreshToken.isSome = true →
      env.refreshOutcome c = some c' → c'.valid = true →
        authenticate env = AuthResult.done c' (some c') true)
    ∧ (c.expired = true → c.refreshToken.isSome = true →
      env.refreshOutcome c = none →
        authenticate env = authenticate { env with tokenFile := none })
    ∧ (c.refreshToken = none →
        authenticate env = AuthResult.done c (some c) true) := by
  refine ⟨?_, ?_, ?_⟩
  · intro hexp hrt href _
    simp [authenticate, finishAuth, hload, hinvalid, hexp, hrt, href]
  · intro hexp hrt href
    simp [authenticate, finishAuth, missingCredsMsgs, hload, hinvalid, hexp, hrt, href]
  · intro hrt
    simp [authenticate, finishAuth, hload, hinvalid, hrt]

/-- The refreshed credentials returned by a succeeding
`creds.refresh(Request())` in the witness environment. -/
def refreshedCreds : Creds :=
  { valid := true, expired := false, refreshToken := some "rt-old", payload := "refreshed-token" }

/-- An expired credential carrying a refresh token. -/
def expiredRefreshable : Creds :=
  { valid := false, expired := true, refreshToken := some "rt-old", payload := "old-token" }

/-- Concrete environment whose refresh call succeeds. -/
def envRefreshOk : AuthEnv :=
  { tokenFile := some expiredRefreshable
    credentialsExists := true
    credentialsPath := "/skill/credentials.json"
    skillDir := "/skill"
    refreshOutcome := fun _ => some refreshedCreds
    flowResult := flowCreds }

/-- Concrete environment whose refresh call raises. -/
def envRefreshFail : AuthEnv :=
  { tokenFile := some expiredRefreshable
    credentialsExists := true
    credentialsPath := "/skill/credentials.json"
    skillDir := "/skill"
    refreshOutcome := fun _ => none
    flowResult := flowCreds }

/-- C2 witness: a succeeding refresh ends Valid with the refreshed
payload persisted; a failing refresh behaves exactly like a missing token
file; a token without refresh token is kept and rewritten as-is. -/
theorem authenticate_expired_token_lifecycle_witness :
    envRefreshOk.tokenFile = some expiredRefreshable
    ∧ expiredRefreshable.valid = false
    ∧ authenticate envRefreshOk = AuthResult.done refreshedCreds (some refreshedCreds) true
    ∧ authenticate envRefreshFail = authenticate { envRefreshFail with tokenFile := none }
    ∧ authenticate envNoRefreshToken = AuthResult.done staleCreds (some staleCreds) true :=
  ⟨rfl, rfl,
   (authenticate_expired_token_lifecycle envRefreshOk expiredRefreshable refreshedCreds
      rfl rfl).1 rfl rfl rfl rfl,
   (authenticate_expired_token_lifecycle envRefreshFail expiredRefreshable refreshedCreds
      rfl rfl).2.1 rfl rfl rfl,
   (authenticate_expired_token_lifecycle envNoRefreshToken staleCreds refreshedCreds
      rfl rfl).2.2 rfl⟩

/-- C8: when interactive consent is required (no token file, or an
invalid token whose refresh attempt leaves no credentials) and the OAuth
client-secret file is absent, `authenticate` terminates the process with
exit status 1 — a terminal outcome distinct from any completed (or
catchable) result — after logging remediation guidance that names the
expected credentials path. -/
theorem authenticate_missing_credentials_fatal (env : AuthEnv)
    (hcred : env.credentialsExists = false)
    (hneed : env.tokenFile = none ∨
      ∃ c, env.tokenFile = some c ∧ c.valid = false ∧ c.expired = true ∧
        c.refreshToken.isSome = true ∧ env.refreshOutcome c = none) :
    authenticate env = AuthResult.exit 1 (missingCredsMsgs env)
    ∧ ("Credentials file not found at: " ++ env.credentialsPath) ∈ missingCredsMsgs env := by
  constructor
  · rcases hneed with hnone | ⟨c, hc, hinvalid, hexp, hrt, href⟩
    · unfold authenticate
      rw [hnone]
      unfold finishAuth
      rw [if_neg (by simp [hcred])]
    · simp [authenticate, finishAuth, hc, hinvalid, hexp, hrt, href, hcred]
  · unfold missingCredsMsgs
    exact List.mem_cons_self _ _

/-- Concrete fresh environment: no token file, no client-secret file. -/
def envNoCredentials : AuthEnv :=
  { tokenFile := none
    credentialsExists := false
    credentialsPath := "/skill/credentials.json"
    skillDir := "/skill"
    refreshOutcome := fun _ => none
    flowResult := flowCreds }

/-- C8 witness: with no token and no credentials file, authentication
exits with status 1 and its log names `/skill/credentials.json`. -/
theorem authenticate_missing_credentials_fatal_witness :
    envNoCredentials.credentialsExists = false
    ∧ authenticate envNoCredentials = AuthResult.exit 1 (missingCredsMsgs envNoCredentials)
    ∧ ("Credentials file not found at: /skill/credentials.json") ∈
        missingCredsMsgs envNoCredentials :=
  ⟨rfl,
   (authenticate_missing_credentials_fatal envNoCredentials rfl (Or.inl rfl)).1,
   (authenticate_missing_credentials_fatal envNoCredentials rfl (Or.inl rfl)).2⟩

theorem find?_some_hasAccount_true (doc : ConfigDoc) (name : String)
    (q : String × AccountConfig)
    (h : doc.accounts.find? (fun p => p.1 = name) = some q) :
    hasAccount doc name = true := by
  have hmem := List.mem_of_find?_eq_some h
  have hqa := List.find?_some h
  exact List.any_eq_true.mpr ⟨q, hmem, hqa⟩

theorem find?_map_setEmail_self (l : List (String × AccountConfig)) (name e : String) :
    (l.map (fun p => if p.1 = name then (p.1, { p.2 with email := some e }) else p)).find?
        (fun p => p.1 = name) =
      (l.find? (fun p => p.1 = name)).map
        (fun p => (p.1, { p.2 with email := some e })) :=
  find?_map_entryUpdate_self l name (fun ac => { ac with email := some e })

/-- C3: after authentication, with no cached email, a successful profile
fetch returning a nonempty address performs exactly one configuration
write, which records that address for the account; with the email already
populated, zero configuration writes occur; and the email write leaves
the `[gmail]` section, every other account's entry, and the account's own
`token_path` untouched (an entry missing from the file is created with
only the email field). -/
theorem email_write_once (doc : ConfigDoc) (name e : String) (em : Option String)
    (fetch : Except String (Option String)) :
    (strTruthy em = false → fetch = Except.ok (some e) → e ≠ "" →
      emailPhase em fetch (some doc) name =
        (some e, some (save_email_to_config doc name e), 1))
    ∧ (strTruthy em = true → emailPhase em fetch (some doc) name = (em, some doc, 0))
    ∧ (save_email_to_config doc name e).gmail = doc.gmail
    ∧ (∀ m, m ≠ name →
        findAccount (save_email_to_config doc name e) m = findAccount doc m)
    ∧ (∀ ac, findAccount doc name = some ac →
        findAccount (save_email_to_config doc name e) name =
          some { email := some e, token_path := ac.token_path })
    ∧ (findAccount doc name = none →
        findAccount (save_email_to_config doc name e) name =
          some { email := some e, token_path := none }) := by
  refine ⟨?_, ?_, ?_, ?_, ?_, ?_⟩
  · intro hem hfetch he
    unfold emailPhase
    rw [hem, hfetch]
    simp [strTruthy, he]
  · intro hem
    simp [emailPhase, hem]
  · unfold save_email_to_config
    split
    · rfl
    · rfl
  · intro m hm
    unfold save_email_to_config
    by_cases h : hasAccount doc name = true
    · rw [if_pos h]
      show ((doc.accounts.map _).find? _).map _ = (doc.accounts.find? _).map _
      exact congrArg (Option.map fun q => q.2)
        (find?_map_entryUpdate doc.accounts name m
          (fun ac => { ac with email := some e }) hm)
    · rw [if_neg h]
      show ((doc.accounts ++ _).find? _).map _ = (doc.accounts.find? _).map _
      exact congrArg (Option.map fun q => q.2)
        (find?_key_append_single doc.accounts name m
          { email := some e, token_path := none } hm)
  · intro ac hac
    obtain ⟨q, hq, hq2⟩ := Option.map_eq_some'.mp hac
    have hhas := find?_some_hasAccount_true doc name q hq
    unfold save_email_to_config
    rw [if_pos hhas]
    unfold findAccount
    show ((doc.accounts.map _).find? _).map _ = _
    rw [find?_map_setEmail_self doc.accounts name e, hq]
    simp [← hq2]
  · intro hnone
    have hfn : doc.accounts.find? (fun p => p.1 = name) = none := by
      unfold findAccount at hnone
      exact Option.map_eq_none'.mp hnone
    have hf : hasAccount doc name = false := by
      simp only [hasAccount]
      rw [List.any_eq_false]
      exact List.find?_eq_none.mp hfn
    unfold save_email_to_config
    rw [if_neg (by simp [hf])]
    unfold findAccount
    show ((doc.accounts ++ _).find? _).map _ = _
    rw [List.find?_append, hfn, Option.none_or]
    simp [List.find?_cons]

/-- C3 witness: on the two-account sample document, a fresh
authentication of `"default"` (no cached email) with the profile
reporting `d@x.io` performs exactly one write recording that email, the
`"work"` entry and the gmail section are untouched, and a second
authentication with the email now cached performs zero writes. -/
theorem email_write_once_witness :
    strTruthy (none : Option String) = false
    ∧ emailPhase none (Except.ok (some "d@x.io")) (some twoAccountDoc) "default" =
        (some "d@x.io", some (save_email_to_config twoAccountDoc "default" "d@x.io"), 1)
    ∧ emailPhase (some "d@x.io") (Except.ok (some "d@x.io"))
        (some (save_email_to_config twoAccountDoc "default" "d@x.io")) "default" =
        (some "d@x.io", some (save_email_to_config twoAccountDoc "default" "d@x.io"), 0)
    ∧ (save_email_to_config twoAccountDoc "default" "d@x.io").gmail = twoAccountDoc.gmail
    ∧ findAccount (save_email_to_config twoAccountDoc "default" "d@x.io") "work" =
        findAccount twoAccountDoc "work"
    ∧ findAccount (save_email_to_config twoAccountDoc "default" "d@x.io") "default" =
        some { email := some "d@x.io", token_path := some "tokens/default.json" } := by
  refine ⟨rfl, ?_, ?_, ?_, ?_, ?_⟩
  · exact (email_write_once twoAccountDoc "default" "d@x.io" none
      (Except.ok (some "d@x.io"))).1 rfl rfl (by decide)
  · exact (email_write_once (save_email_to_config twoAccountDoc "default" "d@x.io")
      "default" "d@x.io" (some "d@x.io") (Except.ok (some "d@x.io"))).2.1 (by decide)
  · exact (email_write_once twoAccountDoc "default" "d@x.io" none
      (Except.ok (some "d@x.io"))).2.2.1
  · exact (email_write_once twoAccountDoc "default" "d@x.io" none
      (Except.ok (some "d@x.io"))).2.2.2.1 "work" (by decide)
  · exact (email_write_once twoAccountDoc "default" "d@x.io" none
      (Except.ok (some "d@x.io"))).2.2.2.2.1
      { email := none, token_path := some "tokens/default.json" } (by decide)

/-- C7: `check_setup` is a pure, total function of the observed
filesystem (so it mutates nothing and never raises — a parse failure only
degrades the accounts list to empty): its `ready` field is exactly the
conjunction of the credentials file existing and some reported account
being authenticated; each account of a parsed config is reported as
(name, email, token-file-exists); and on a fresh installation (no config
file, no credentials file) the result is not ready with an empty accounts
list. -/
theorem check_setup_spec (env : SetupEnv) :
    (check_setup env).ready =
      (env.credentialsExists && (check_setup env).accounts.any (·.authenticated))
    ∧ (check_setup env).credentials_exists = env.credentialsExists
    ∧ (∀ doc, env.configState = ConfigFileState.parsed doc →
        (check_setup env).accounts = doc.accounts.map (fun p =>
          { name := p.1
            email := p.2.email
            authenticated :=
              env.existingFiles.contains
                (resolveTokenPath env.skillDir p.1 p.2.token_path) }))
    ∧ (env.configState = ConfigFileState.missing →
        (check_setup env).accounts = [] ∧ (check_setup env).config_exists = false)
    ∧ (env.configState = ConfigFileState.corrupt →
        (check_setup env).accounts = [] ∧ (check_setup env).config_exists = true)
    ∧ (env.configState = ConfigFileState.missing → env.credentialsExists = false →
        (check_setup env).ready = false ∧ (check_setup env).accounts = []) := by
  refine ⟨rfl, rfl, ?_, ?_, ?_, ?_⟩
  · intro doc h
    simp [check_setup, h]
  · intro h
    simp [check_setup, h]
  · intro h
    simp [check_setup, h]
  · intro h hc
    simp [check_setup, h, hc]

/-- The filesystem of a fresh installation: no `config.toml`, no
`credentials.json`, no token files. -/
def freshInstallEnv : SetupEnv :=
  { skillDir := "/skill"
    configState := ConfigFileState.missing
    credentialsExists := false
    existingFiles := [] }

/-- C7 witness: on a fresh installation `check_setup` reports not ready
with an empty accounts list, and on a parsed two-account config with only
the default token on disk it reports the two accounts with their token
existence. -/
theorem check_setup_spec_witness :
    freshInstallEnv.configState = ConfigFileState.missing
    ∧ freshInstallEnv.credentialsExists = false
    ∧ (check_setup freshInstallEnv).ready = false
    ∧ (check_setup freshInstallEnv).accounts = []
    ∧ (check_setup
        { skillDir := "/skill"
          configState := ConfigFileState.parsed twoAccountDoc
          credentialsExists := true
          existingFiles := ["/skill/tokens/default.json"] }).accounts =
        [{ name := "default", email := none, authenticated := true },
         { name := "work", email := some "w@x.io", authenticated := false }] := by
  refine ⟨rfl, rfl, ?_, ?_, ?_⟩
  · exact ((check_setup_spec freshInstallEnv).2.2.2.2.2 rfl rfl).1
  · exact ((check_setup_spec freshInstallEnv).2.2.2.2.2 rfl rfl).2
  · rw [(check_setup_spec _).2.2.1 twoAccountDoc rfl]
    decide

/-- A `cmd_summary` environment in which the provider's label-listing
call (made by `resolve_label` before any `try` block) raises. -/
def summaryEnvErr : SummaryEnv :=
  { accountEmail := some "a@b.io"
    label := "News"
    labelsResult := Except.error "HttpError 500"
    listResult := Except.ok []
    batchExec := Except.ok ()
    batchResponses := [] }

/-- C9 (counterexample): the claim asserts every CLI command catches
provider API errors and reports them as a `{status: "error", ...}`
payload on stdout; but `cmd_summary` performs its provider calls outside
any `try`, so on `summaryEnvErr` the error propagates out of the command
as an uncaught exception instead of being printed as the structured error
payload. -/
theorem cmd_summary_uncaught_counterexample :
    cmd_summary summaryEnvErr = Except.error "HttpError 500"
    ∧ cmd_summary summaryEnvErr ≠
        Except.ok (output_error "HttpError 500" (some "a@b.io")) := by
  refine ⟨rfl, ?_⟩
  intro h
  have h' : (Except.error "HttpError 500" : Except String (List (String × JVal))) =
      Except.ok (output_error "HttpError 500" (some "a@b.io")) := h
  exact Except.noConfusion h'

/-- C9 (amended): commands whose provider calls sit inside `try` — such
as `cmd_labels_list` — always emit exactly one payload, reporting a
raising provider call through `output_error` (and a `status: "success"`
document otherwise); but `cmd_summary` and `cmd_cleanup` perform their
provider calls outside any `try`, so a raising call there propagates out
of the command as an uncaught fault. -/
theorem provider_error_reporting (envL : LabelsListEnv) (envS : SummaryEnv)
    (envC : CleanupEnv) (e : String) (rest : List (Except String PageResp)) :
    (envL.labelsResult = Except.error e →
      cmd_labels_list envL = output_error e envL.accountEmail)
    ∧ (∀ labels, envL.labelsResult = Except.ok labels →
      jLookup (cmd_labels_list envL) "status" = some (JVal.str "success"))
    ∧ (envS.labelsResult = Except.error e → cmd_summary envS = Except.error e)
    ∧ (envC.pages = Except.error e :: rest → cmd_cleanup envC = Except.error e) := by
  refine ⟨?_, ?_, ?_, ?_⟩
  · intro h
    unfold cmd_labels_list
    rw [h]
  · intro labels h
    unfold cmd_labels_list
    rw [h]
    simp [jLookup, List.find?_cons]
  · intro h
    unfold cmd_summary
    rw [h]
    rfl
  · intro h
    unfold cmd_cleanup
    rw [h]
    rfl

/-- A `cmd_labels_list` environment whose provider call raises. -/
def labelsEnvErr : LabelsListEnv :=
  { accountEmail := some "a@b.io", labelsResult := Except.error "HttpError 500" }

/-- A `cmd_labels_list` environment whose provider call returns one
system label. -/
def labelsEnvOk : LabelsListEnv :=
  { accountEmail := some "a@b.io"
    labelsResult :=
      Except.ok [{ id := "INBOX", name := "INBOX", type := "system"
                   messagesTotal := none, messagesUnread := none }] }

/-- A `cmd_cleanup` environment whose first page-listing call raises. -/
def cleanupEnvErr : CleanupEnv :=
  { accountEmail := some "a@b.io"
    label := "News"
    pages := [Except.error "HttpError 500"]
    trashExec := fun _ => Except.ok () }

/-- C9 witness: `cmd_labels_list` turns a raising provider call into the
structured error payload and a succeeding one into a success payload,
while the same raising call propagates uncaught out of `cmd_summary` and
`cmd_cleanup`. -/
theorem provider_error_reporting_witness :
    labelsEnvErr.labelsResult = Except.error "HttpError 500"
    ∧ cmd_labels_list labelsEnvErr = output_error "HttpError 500" (some "a@b.io")
    ∧ jLookup (cmd_labels_list labelsEnvOk) "status" = some (JVal.str "success")
    ∧ cmd_summary summaryEnvErr = Except.error "HttpError 500"
    ∧ cmd_cleanup cleanupEnvErr = Except.error "HttpError 500" :=
  ⟨rfl,
   (provider_error_reporting labelsEnvErr summaryEnvErr cleanupEnvErr
      "HttpError 500" []).1 rfl,
   (provider_error_reporting labelsEnvOk summaryEnvErr cleanupEnvErr
      "HttpError 500" []).2.1 _ rfl,
   (provider_error_reporting labelsEnvErr summaryEnvErr cleanupEnvErr
      "HttpError 500" []).2.2.1 rfl,
   (provider_error_reporting labelsEnvErr summaryEnvErr cleanupEnvErr
      "HttpError 500" []).2.2.2 rfl⟩

end EmailCopilot
